import Mathlib

/-!
Verification of the controller registry and request dispatcher of the
basic-service package, embedded shallowly from
`src/basic-service/servers/express-server.ts`,
`src/basic-service/basic-service.ts` and `src/interfaces/controller.ts`.

JavaScript objects are modelled as first-order Lean values; object identity
(what the strict equality operator `===` and `Array.prototype.indexOf`
compare for objects) is modelled by an explicit `ref : Nat` tag on handler
declarations and by `Nat` references for controller instances and routers.
Mutation of `this` is modelled by explicit state passing on the
`ExpressServer` record; a thrown exception is the `some` case of the
`Option JsException` component of a result, paired with the state at the
moment of the throw.
-/

set_option autoImplicit false

namespace BasicService

/-- The `CONTROLLER_METHOD` enum of `src/interfaces/controller.ts`:
the available HTTP verbs. -/
inductive CONTROLLER_METHOD where
  | GET
  | POST
  | PUT
  | DELETE
deriving DecidableEq, Repr

/-- The `ControllerHandler` interface of `src/interfaces/controller.ts`:
`{ method, path, handler }`. The extra `ref` field models the JavaScript
object identity of the declaration object: `indexOf` on a handler list
compares declarations with `===`, i.e. by `ref`, never by the other
fields. -/
structure ControllerHandler where
  method : CONTROLLER_METHOD
  path : String
  handler : String
  ref : Nat
deriving DecidableEq, Repr

/-- The `Controller` interface of `src/interfaces/controller.ts`:
`{ name, instance, handler? }`. The opaque `instance : any` is modelled by
a `Nat` reference (`inst`) into an instance environment supplied at
dispatch time; the optional `handler` array is an `Option` (absent =
`undefined`). -/
structure Controller where
  name : String
  inst : Nat
  handler : Option (List ControllerHandler)
deriving DecidableEq, Repr

/-- A JavaScript `Error` value: `throw new Error(message)`. -/
structure JsException where
  message : String
deriving DecidableEq, Repr

/-- The error thrown by `ExpressServer.addController` on a duplicate name:
`new Error('controller already presents')`. The spec calls this failure
`DuplicateControllerError`. -/
def DuplicateControllerError : JsException :=
  ⟨"controller already presents"⟩

/-- The error thrown by `ExpressServer.addControllerHandlers` on an
unregistered name: `new Error('controller not found')`. The spec calls
this failure `ControllerNotFoundError`. -/
def ControllerNotFoundError : JsException :=
  ⟨"controller not found"⟩

/-- Lookup in a JavaScript object used as a string-keyed dictionary
(first matching key). -/
def dictFind {κ α : Type} [DecidableEq κ] (m : List (κ × α)) (k : κ) : Option α :=
  match m with
  | [] => none
  | (k0, v0) :: rest => if k0 = k then some v0 else dictFind rest k

/-- Assignment `m[k] = v` on a JavaScript dictionary: overwrite the
existing entry for `k`, or append a fresh one. -/
def dictSet {κ α : Type} [DecidableEq κ] (m : List (κ × α)) (k : κ) (v : α) : List (κ × α) :=
  match m with
  | [] => [(k, v)]
  | (k0, v0) :: rest => if k0 = k then (k, v) :: rest else (k0, v0) :: dictSet rest k v

/-- Auxiliary scan for `jsIndexOf`, carrying the current index. -/
def jsIndexOfAux (h : ControllerHandler) (i : Nat) : List ControllerHandler → Int
  | [] => -1
  | x :: rest => if x.ref = h.ref then (i : Int) else jsIndexOfAux h (i + 1) rest

/-- `Array.prototype.indexOf` on a handler list: the index of the first
element strictly equal (`===`, i.e. same object reference) to `h`, or
`-1` when none is. -/
def jsIndexOf (l : List ControllerHandler) (h : ControllerHandler) : Int :=
  jsIndexOfAux h 0 l

/-- One registered route of an express `Router`: `router[method](path, shim)`
where the dispatch shim captured the controller instance and the handler
method name at binding time. -/
structure RouteBinding where
  method : CONTROLLER_METHOD
  path : String
  inst : Nat
  handlerName : String
deriving DecidableEq, Repr

/-- One entry of the `RouterControllerMap` of
`src/basic-service/servers/express-server.ts`: the express `Router`
(by reference) and the `Controller`. -/
structure RCEntry where
  routerId : Nat
  controller : Controller
deriving DecidableEq, Repr

/-- The mutable state of an `ExpressServer`:
`routerControllerMap` is the controller registry; `routers` is the heap of
express `Router` objects (each an ordered list of route bindings),
addressed by the references stored in the registry; `mounted` records the
routers passed to `app.use(router)`, in order; `nextRouterId` models
allocation of fresh `express.Router()` objects; `serverListening` is the
`server` field (`none` before the first `listen`); `staticDirs` and
`swaggerMounts` record the `express.static` and swagger-ui registrations
made by `prepareSwagger`. -/
structure ExpressServer where
  routerControllerMap : List (String × RCEntry)
  routers : List (Nat × List RouteBinding)
  mounted : List Nat
  nextRouterId : Nat
  serverListening : Option Bool
  staticDirs : List String
  swaggerMounts : List (String × String)
deriving DecidableEq, Repr

/-- The `ExpressServer` constructor: a fresh application with an empty
registry, nothing mounted and no listening socket. -/
def ExpressServer.new : ExpressServer :=
  { routerControllerMap := []
    routers := []
    mounted := []
    nextRouterId := 0
    serverListening := none
    staticDirs := []
    swaggerMounts := [] }

/-- `ExpressServer.listen`: `this.server = this.app.listen(port, callback)`. -/
def ExpressServer.listen (s : ExpressServer) (_port : Option Nat) : ExpressServer :=
  { s with serverListening := some true }

/-- `ExpressServer.close`: `this.server?.close()`. When the server never
listened, `this.server` is `undefined` and the optional chain makes the
call a no-op; on an existing server handle, Node closes the listening
socket, and closing an already closed server without a callback is also a
no-op of the engine (no exception is raised either way). -/
def ExpressServer.close (s : ExpressServer) : ExpressServer :=
  match s.serverListening with
  | none => s
  | some _ => { s with serverListening := some false }

/-- `ExpressServer.createRouterForController`: allocates a fresh empty
`express.Router()`, stores `{ router, controller }` in the
`routerControllerMap` under the controller name, and returns the router
(here: its reference). -/
def ExpressServer.createRouterForController (s : ExpressServer) (c : Controller) :
    ExpressServer × Nat :=
  let rid := s.nextRouterId
  ({ s with
      routers := dictSet s.routers rid []
      nextRouterId := rid + 1
      routerControllerMap :=
        dictSet s.routerControllerMap c.name { routerId := rid, controller := c } },
    rid)

/-- The body of the `forEach` loop of `ExpressServer.addControllerHandlers`
for one declaration `h`, with the router reference `rid` and the
controller instance `instRef` captured before the loop:
`router[method](path, shim)` appends the route binding to the router
unconditionally; then, after initialising a missing handler array to `[]`,
the declaration is pushed onto the registry bookkeeping list only when
`indexOf` does not find it there (strict object equality). -/
def ExpressServer.bindOne (cid : String) (rid : Nat) (instRef : Nat)
    (s : ExpressServer) (h : ControllerHandler) : ExpressServer :=
  let routes := (dictFind s.routers rid).getD []
  let b : RouteBinding :=
    { method := h.method, path := h.path, inst := instRef, handlerName := h.handler }
  let s1 := { s with routers := dictSet s.routers rid (routes ++ [b]) }
  match dictFind s1.routerControllerMap cid with
  | none => s1
  | some entry =>
    let hl := entry.controller.handler.getD []
    let hl1 := if jsIndexOf hl h = -1 then hl ++ [h] else hl
    let entry1 := { entry with controller := { entry.controller with handler := some hl1 } }
    { s1 with routerControllerMap := dictSet s1.routerControllerMap cid entry1 }

/-- `ExpressServer.addControllerHandlers`: throws
`Error('controller not found')` when the id is not registered; otherwise
normalises a single declaration to a one-element array and runs the
binding loop over the declarations, with the router and controller
instance captured once before the loop. -/
def ExpressServer.addControllerHandlers (s : ExpressServer) (controllerid : String)
    (controllerHandlers : ControllerHandler ⊕ List ControllerHandler) :
    Option JsException × ExpressServer :=
  match dictFind s.routerControllerMap controllerid with
  | none => (some ControllerNotFoundError, s)
  | some entry =>
    let hs := match controllerHandlers with
      | .inl h => [h]
      | .inr l => l
    (none, hs.foldl (ExpressServer.bindOne controllerid entry.routerId entry.controller.inst) s)

/-- `ExpressServer.addController`: throws
`Error('controller already presents')` when the name is already in the
registry; otherwise creates the router and the registry entry, attaches
the pre-declared handlers when `controller.handler` is truthy (any array,
the empty one included), and finally mounts the router with
`this.app.use(router)`. -/
def ExpressServer.addController (s : ExpressServer) (c : Controller) :
    Option JsException × ExpressServer :=
  match dictFind s.routerControllerMap c.name with
  | some _ => (some DuplicateControllerError, s)
  | none =>
    let pr := s.createRouterForController c
    let s1 := pr.1
    let rid := pr.2
    let step := match c.handler with
      | some hs => s1.addControllerHandlers c.name (.inr hs)
      | none => (none, s1)
    match step with
    | (some e, s2) => (some e, s2)
    | (none, s2) => (none, { s2 with mounted := s2.mounted ++ [rid] })

/-- Default swagger path of `express-server.ts`: `DEFAULT_SWAGGER_PATH`. -/
def DEFAULT_SWAGGER_PATH : String := "/docs"

/-- Default swagger asset directory of `express-server.ts`:
`DEFAULT_SWAGGER_LOCATION`. -/
def DEFAULT_SWAGGER_LOCATION : String := "public"

/-- Fixed swagger descriptor location of `express-server.ts`:
`DEFAULT_SWAGGER_URL`. -/
def DEFAULT_SWAGGER_URL : String := "/swagger.json"

/-- `ExpressServer.prepareSwagger(path = DEFAULT_SWAGGER_PATH,
location = DEFAULT_SWAGGER_LOCATION)`: mounts `express.static(location)`
and the swagger-ui at `path` with the descriptor fetched from the fixed
`DEFAULT_SWAGGER_URL`. TypeScript default parameters apply when the
caller passes `undefined`, modelled by `Option.getD`. -/
def ExpressServer.prepareSwagger (s : ExpressServer)
    (path location : Option String) : ExpressServer :=
  let p := path.getD DEFAULT_SWAGGER_PATH
  let loc := location.getD DEFAULT_SWAGGER_LOCATION
  { s with
      staticDirs := s.staticDirs ++ [loc]
      swaggerMounts := s.swaggerMounts ++ [(p, DEFAULT_SWAGGER_URL)] }

/-- The `ServiceConfig` accepted by the `BasicService` constructor:
`{ port?, docsPath?, swaggerLocation?, swagger? }`. -/
structure ServiceConfig where
  port : Option Nat
  docsPath : Option String
  swaggerLocation : Option String
  swagger : Option Bool
deriving DecidableEq, Repr

/-- The `BasicService` constructor acting on the singleton server obtained
from `Server.getInstance()`: when `serviceConfig?.swagger !== false`
(so also when the configuration or the flag is absent) it calls
`prepareSwagger(serviceConfig?.docsPath, serviceConfig?.swaggerLocation)`;
when `swagger` is exactly `false` it does nothing to the server. -/
def construct (s : ExpressServer) (serviceConfig : Option ServiceConfig) : ExpressServer :=
  if serviceConfig.bind (fun c => c.swagger) = some false then s
  else
    s.prepareSwagger (serviceConfig.bind (fun c => c.docsPath))
      (serviceConfig.bind (fun c => c.swaggerLocation))

/-- The outcome of a controller method call before the dispatch shim
awaits it: the method may return a plain value or throw synchronously
(`sync`), or return a promise that resolves or rejects (`promise`).
An `Except.error` carries the message of the thrown or rejected error. -/
inductive MethodResult where
  | sync (r : Except String String)
  | promise (r : Except String String)
deriving Repr

/-- The `await` in the dispatch shim: a plain value or synchronous throw
passes through, a promise is awaited to its resolution or rejection. -/
def awaitResult : MethodResult → Except String String
  | .sync r => r
  | .promise r => r

/-- The behaviour of the controller instances at dispatch time:
`env instRef methodName req` is the outcome of `controller[methodName](req)`
on the instance referenced by `instRef` (a missing method is a
synchronous `TypeError`, i.e. `sync (.error ...)`). -/
def InstEnv : Type := Nat → String → String → MethodResult

/-- The result of running one dispatch shim to completion: either the
response written by `res.send`, or the method failure the spec calls
`HandlerInvocationError`, propagated out of the async route handler to
the engine default error path (a server error response). -/
inductive DispatchOutcome where
  | success (status : Nat) (body : String)
  | HandlerInvocationError (message : String)
deriving DecidableEq, Repr

/-- The express default success status used by `res.send`. -/
def successStatus : Nat := 200

/-- The dispatch shim installed by `addControllerHandlers` for one binding:
`async (req, res) => { const response = await controller[handler](req);
return res.send(response); }`. It invokes the captured instance method
with the inbound request, awaits the outcome, and either sends the
resolved value with the default success status or propagates the
rejection. -/
def dispatchShim (env : InstEnv) (instRef : Nat) (handlerName : String)
    (req : String) : DispatchOutcome :=
  match awaitResult (env instRef handlerName req) with
  | .ok response => .success successStatus response
  | .error e => .HandlerInvocationError e

/-- The ordered route table the express app serves: the bindings of every
mounted router, in mount order. -/
def ExpressServer.appRoutes (s : ExpressServer) : List RouteBinding :=
  (s.mounted.map (fun rid => (dictFind s.routers rid).getD [])).flatten

/-- Express route resolution on the app: the first mounted binding whose
verb and path match the inbound request. -/
def findRoute (bs : List RouteBinding) (m : CONTROLLER_METHOD) (p : String) :
    Option RouteBinding :=
  bs.find? (fun b => b.method = m ∧ b.path = p)

/-- Serving one inbound request: resolve the route, run its shim, and
return the outcome together with the server state afterwards (`none` when
no route matches — the engine 404 default, out of scope here). The shim
bodies read only their captured instance and method name, so the state
component is the input state. -/
def ExpressServer.serverDispatch (env : InstEnv) (s : ExpressServer)
    (m : CONTROLLER_METHOD) (p : String) (req : String) :
    Option DispatchOutcome × ExpressServer :=
  match findRoute s.appRoutes m p with
  | none => (none, s)
  | some b => (some (dispatchShim env b.inst b.handlerName req), s)

/-- The registry bookkeeping list of a registered controller, as the code
reads it inside the dedup check: absent (`undefined`) counts as empty. -/
def ExpressServer.handlersOf (s : ExpressServer) (cid : String) : List ControllerHandler :=
  match dictFind s.routerControllerMap cid with
  | none => []
  | some entry => entry.controller.handler.getD []

/-- The raw optional handler field of a registered controller (to observe
the difference between an absent field and an empty list). -/
def ExpressServer.handlerField (s : ExpressServer) (cid : String) :
    Option (Option (List ControllerHandler)) :=
  (dictFind s.routerControllerMap cid).map (fun entry => entry.controller.handler)

/-- The bindings of the router referenced by `rid`. -/
def ExpressServer.routerBindings (s : ExpressServer) (rid : Nat) : List RouteBinding :=
  (dictFind s.routers rid).getD []

end BasicService

namespace BasicService

/-! ## Dictionary and indexOf lemmas -/

theorem dictFind_dictSet_self {κ α : Type} [DecidableEq κ] (m : List (κ × α)) (k : κ) (v : α) :
    dictFind (dictSet m k v) k = some v := by
  induction m with
  | nil => simp [dictFind, dictSet]
  | cons p rest ih =>
    obtain ⟨k0, v0⟩ := p
    by_cases hk : k0 = k
    · simp [dictFind, dictSet, hk]
    · simp [dictFind, dictSet, hk, ih]

theorem dictSet_same {κ α : Type} [DecidableEq κ] (m : List (κ × α)) (k : κ) (v : α)
    (hfind : dictFind m k = some v) : dictSet m k v = m := by
  induction m with
  | nil => simp [dictFind] at hfind
  | cons p rest ih =>
    obtain ⟨k0, v0⟩ := p
    by_cases hk : k0 = k
    · subst hk
      simp [dictFind] at hfind
      simp [dictSet, hfind]
    · simp [dictFind, hk] at hfind
      simp [dictSet, hk, ih hfind]

theorem jsIndexOfAux_ne_neg1 (h : ControllerHandler) (l : List ControllerHandler)
    (hmem : ∃ x ∈ l, x.ref = h.ref) : ∀ i : Nat, jsIndexOfAux h i l ≠ -1 := by
  induction l with
  | nil => simp at hmem
  | cons x rest ih =>
    intro i
    by_cases hx : x.ref = h.ref
    · simp [jsIndexOfAux, hx]
    · simp [jsIndexOfAux, hx]
      apply ih
      rcases hmem with ⟨y, hy, hyr⟩
      rcases List.mem_cons.mp hy with rfl | htail
      · exact absurd hyr hx
      · exact ⟨y, htail, hyr⟩

theorem jsIndexOf_ne_neg1_of_mem (h : ControllerHandler) (l : List ControllerHandler)
    (hmem : h ∈ l) : jsIndexOf l h ≠ -1 :=
  jsIndexOfAux_ne_neg1 h l ⟨h, hmem, rfl⟩ 0

/-! ## One-step characterisation of the binding loop body -/

/-- The registry entry after one iteration of the binding loop of
`addControllerHandlers` over declaration `h` (derived characterisation of
`bindOne`, used only in proofs). -/
def bindOneEntry (entry : RCEntry) (h : ControllerHandler) : RCEntry :=
  { entry with controller := { entry.controller with
      handler := some (if jsIndexOf (entry.controller.handler.getD []) h = -1
                       then entry.controller.handler.getD [] ++ [h]
                       else entry.controller.handler.getD []) } }

theorem bindOne_spec (s : ExpressServer) (cid : String) (rid instRef : Nat)
    (h : ControllerHandler) (entry : RCEntry)
    (hreg : dictFind s.routerControllerMap cid = some entry) :
    (ExpressServer.bindOne cid rid instRef s h).routers
        = dictSet s.routers rid (s.routerBindings rid
            ++ [{ method := h.method, path := h.path, inst := instRef, handlerName := h.handler }]) ∧
    (ExpressServer.bindOne cid rid instRef s h).routerControllerMap
        = dictSet s.routerControllerMap cid (bindOneEntry entry h) ∧
    (ExpressServer.bindOne cid rid instRef s h).mounted = s.mounted ∧
    (ExpressServer.bindOne cid rid instRef s h).nextRouterId = s.nextRouterId ∧
    (ExpressServer.bindOne cid rid instRef s h).serverListening = s.serverListening ∧
    (ExpressServer.bindOne cid rid instRef s h).staticDirs = s.staticDirs ∧
    (ExpressServer.bindOne cid rid instRef s h).swaggerMounts = s.swaggerMounts := by
  simp [ExpressServer.bindOne, hreg, bindOneEntry, ExpressServer.routerBindings]

end BasicService

namespace BasicService

/-! ## Claim theorems: registry-time errors and lifecycle -/

/-- C1: registering a controller whose name is already in the registry
throws the duplicate-controller error (the code raises
`Error('controller already presents')`, the failure the spec calls
`DuplicateControllerError`), and the registry state after the failed call
is exactly the state before it: no entry is added, modified or removed. -/
theorem addController_duplicate_fails (s : ExpressServer) (c : Controller)
    (hdup : (dictFind s.routerControllerMap c.name).isSome = true) :
    s.addController c = (some DuplicateControllerError, s) := by
  obtain ⟨e, he⟩ := Option.isSome_iff_exists.mp hdup
  simp [ExpressServer.addController, he]

/-- Witness for C1: registering the controller named `t` twice on a fresh
server fails the second time with the duplicate error and leaves the
state of the first registration untouched. -/
theorem addController_duplicate_fails_w :
    ((dictFind (ExpressServer.new.addController ⟨"t", 0, none⟩).2.routerControllerMap
        (Controller.mk "t" 0 none).name).isSome = true) ∧
    (ExpressServer.new.addController ⟨"t", 0, none⟩).2.addController ⟨"t", 0, none⟩
      = (some DuplicateControllerError, (ExpressServer.new.addController ⟨"t", 0, none⟩).2) :=
  ⟨by decide, addController_duplicate_fails _ _ (by decide)⟩

/-- C3: attaching any handler declaration(s) to a name that is not in the
registry throws the controller-not-found error synchronously (the code
raises `Error('controller not found')`, the failure the spec calls
`ControllerNotFoundError`), and the server state — every registry entry
and every handler list — is exactly as before the failed call. -/
theorem addControllerHandlers_unregistered_fails (s : ExpressServer) (cid : String)
    (chs : ControllerHandler ⊕ List ControllerHandler)
    (hno : dictFind s.routerControllerMap cid = none) :
    s.addControllerHandlers cid chs = (some ControllerNotFoundError, s) := by
  simp [ExpressServer.addControllerHandlers, hno]

/-- Witness for C3: attaching a handler to the unregistered name `ghost`
on a fresh server fails with the controller-not-found error and leaves
the state unchanged. -/
theorem addControllerHandlers_unregistered_fails_w :
    dictFind (ExpressServer.new).routerControllerMap "ghost" = none ∧
    ExpressServer.new.addControllerHandlers "ghost" (.inl ⟨.GET, "/g", "g", 0⟩)
      = (some ControllerNotFoundError, ExpressServer.new) :=
  ⟨by decide, addControllerHandlers_unregistered_fails _ _ _ (by decide)⟩

/-- C7: `close()` on an application that never started listening is a
no-op (the optional chain `this.server?.close()` does nothing, so nothing
is thrown), and `close()` is idempotent: closing twice leaves the state
exactly as a single close would. -/
theorem close_noop_and_idempotent :
    (∀ s : ExpressServer, s.serverListening = none → s.close = s) ∧
    (∀ s : ExpressServer, s.close.close = s.close) := by
  constructor
  · intro s h
    simp [ExpressServer.close, h]
  · intro s
    cases h : s.serverListening <;> simp [ExpressServer.close, h]

/-- Witness for C7: closing a fresh never-listening server returns it
unchanged, and closing a listening server twice equals closing it once. -/
theorem close_noop_and_idempotent_w :
    (ExpressServer.new.serverListening = none ∧ ExpressServer.new.close = ExpressServer.new) ∧
    (ExpressServer.new.listen none).close.close = (ExpressServer.new.listen none).close :=
  ⟨⟨rfl, close_noop_and_idempotent.1 ExpressServer.new rfl⟩,
   close_noop_and_idempotent.2 (ExpressServer.new.listen none)⟩

/-- C9: constructing the service with `swagger: false` performs no
documentation-endpoint setup at all (the server state is untouched); in
every other case — `swagger` true or absent, including no configuration
object — documentation exposure is configured with the path defaulting to
`/docs`, the asset directory defaulting to `public`, and the descriptor
served from the fixed location `/swagger.json`, while the registry is not
touched. -/
theorem construct_swagger_config (s : ExpressServer) (cfg : Option ServiceConfig) :
    ((cfg.bind fun c => c.swagger) = some false → construct s cfg = s) ∧
    ((cfg.bind fun c => c.swagger) ≠ some false →
      (construct s cfg).swaggerMounts
        = s.swaggerMounts ++ [((cfg.bind fun c => c.docsPath).getD DEFAULT_SWAGGER_PATH, DEFAULT_SWAGGER_URL)] ∧
      (construct s cfg).staticDirs
        = s.staticDirs ++ [((cfg.bind fun c => c.swaggerLocation).getD DEFAULT_SWAGGER_LOCATION)] ∧
      (construct s cfg).routerControllerMap = s.routerControllerMap ∧
      (construct s cfg).routers = s.routers ∧
      (construct s cfg).mounted = s.mounted) := by
  constructor
  · intro h
    simp [construct, h]
  · intro h
    simp [construct, h, ExpressServer.prepareSwagger]

/-- Witness for C9: with `swagger: false` the fresh server is returned
unchanged; with no configuration object the swagger-ui is mounted at the
default path with the fixed descriptor location. -/
theorem construct_swagger_config_w :
    construct ExpressServer.new
        (some { port := none, docsPath := none, swaggerLocation := none, swagger := some false })
      = ExpressServer.new ∧
    (construct ExpressServer.new none).swaggerMounts
      = [(DEFAULT_SWAGGER_PATH, DEFAULT_SWAGGER_URL)] := by
  constructor
  · exact (construct_swagger_config ExpressServer.new _).1 (by decide)
  · have h2 := (construct_swagger_config ExpressServer.new none).2 (by decide)
    rw [h2.1]
    rfl

end BasicService

namespace BasicService

/-! ## Reduction lemmas for handler attachment -/

theorem bindOneEntry_routerId (entry : RCEntry) (h : ControllerHandler) :
    (bindOneEntry entry h).routerId = entry.routerId := rfl

theorem bindOneEntry_inst (entry : RCEntry) (h : ControllerHandler) :
    (bindOneEntry entry h).controller.inst = entry.controller.inst := rfl

theorem addControllerHandlers_inl (s : ExpressServer) (cid : String) (h : ControllerHandler)
    (entry : RCEntry) (hreg : dictFind s.routerControllerMap cid = some entry) :
    s.addControllerHandlers cid (.inl h)
      = (none, ExpressServer.bindOne cid entry.routerId entry.controller.inst s h) := by
  simp [ExpressServer.addControllerHandlers, hreg]

theorem handlersOf_eq (s : ExpressServer) (cid : String) (entry : RCEntry)
    (hreg : dictFind s.routerControllerMap cid = some entry) :
    s.handlersOf cid = entry.controller.handler.getD [] := by
  simp [ExpressServer.handlersOf, hreg]

theorem dictFind_bindOne_self (s : ExpressServer) (cid : String) (rid instRef : Nat)
    (h : ControllerHandler) (entry : RCEntry)
    (hreg : dictFind s.routerControllerMap cid = some entry) :
    dictFind (ExpressServer.bindOne cid rid instRef s h).routerControllerMap cid
      = some (bindOneEntry entry h) := by
  rw [(bindOne_spec s cid rid instRef h entry hreg).2.1, dictFind_dictSet_self]

theorem handlersOf_bindOne (s : ExpressServer) (cid : String) (rid instRef : Nat)
    (h : ControllerHandler) (entry : RCEntry)
    (hreg : dictFind s.routerControllerMap cid = some entry) :
    (ExpressServer.bindOne cid rid instRef s h).handlersOf cid
      = if jsIndexOf (s.handlersOf cid) h = -1
        then s.handlersOf cid ++ [h] else s.handlersOf cid := by
  rw [handlersOf_eq s cid entry hreg]
  simp [ExpressServer.handlersOf, dictFind_bindOne_self s cid rid instRef h entry hreg,
        bindOneEntry]

theorem routerBindings_bindOne (s : ExpressServer) (cid : String) (rid instRef : Nat)
    (h : ControllerHandler) (entry : RCEntry)
    (hreg : dictFind s.routerControllerMap cid = some entry) :
    (ExpressServer.bindOne cid rid instRef s h).routerBindings rid
      = s.routerBindings rid
        ++ [{ method := h.method, path := h.path, inst := instRef, handlerName := h.handler }] := by
  simp [ExpressServer.routerBindings, (bindOne_spec s cid rid instRef h entry hreg).1,
        dictFind_dictSet_self]

/-- Attaching a declaration whose object reference is already in the
bookkeeping list leaves that list unchanged (shared helper). -/
theorem attach_found_noop (s : ExpressServer) (cid : String) (h : ControllerHandler)
    (entry : RCEntry) (hreg : dictFind s.routerControllerMap cid = some entry)
    (hfound : jsIndexOf (s.handlersOf cid) h ≠ -1) :
    ((s.addControllerHandlers cid (.inl h)).2).handlersOf cid = s.handlersOf cid := by
  rw [addControllerHandlers_inl s cid h entry hreg]
  rw [handlersOf_bindOne s cid entry.routerId entry.controller.inst h entry hreg]
  simp [hfound]

/-- Attaching the same declaration object twice, starting from a list that
does not hold its reference: the bookkeeping list gains the declaration
exactly once, while the router of the controller gains the route binding
twice (shared helper). -/
theorem attach_twice_new (s : ExpressServer) (cid : String) (h : ControllerHandler)
    (entry : RCEntry) (hreg : dictFind s.routerControllerMap cid = some entry)
    (hnew : jsIndexOf (s.handlersOf cid) h = -1) :
    (((s.addControllerHandlers cid (.inl h)).2).addControllerHandlers cid (.inl h)).2.handlersOf cid
      = s.handlersOf cid ++ [h] ∧
    (((s.addControllerHandlers cid (.inl h)).2).addControllerHandlers cid (.inl h)).2.routerBindings entry.routerId
      = s.routerBindings entry.routerId
        ++ [{ method := h.method, path := h.path, inst := entry.controller.inst, handlerName := h.handler },
            { method := h.method, path := h.path, inst := entry.controller.inst, handlerName := h.handler }] := by
  have hred1 := addControllerHandlers_inl s cid h entry hreg
  have hreg1 := dictFind_bindOne_self s cid entry.routerId entry.controller.inst h entry hreg
  have hfirstH : (ExpressServer.bindOne cid entry.routerId entry.controller.inst s h).handlersOf cid
      = s.handlersOf cid ++ [h] := by
    rw [handlersOf_bindOne s cid entry.routerId entry.controller.inst h entry hreg, if_pos hnew]
  have hfirstR : (ExpressServer.bindOne cid entry.routerId entry.controller.inst s h).routerBindings entry.routerId
      = s.routerBindings entry.routerId
        ++ [{ method := h.method, path := h.path, inst := entry.controller.inst, handlerName := h.handler }] :=
    routerBindings_bindOne s cid entry.routerId entry.controller.inst h entry hreg
  have hred2 := addControllerHandlers_inl
      (ExpressServer.bindOne cid entry.routerId entry.controller.inst s h) cid h
      (bindOneEntry entry h) hreg1
  rw [bindOneEntry_routerId, bindOneEntry_inst] at hred2
  have hsecondH := handlersOf_bindOne
      (ExpressServer.bindOne cid entry.routerId entry.controller.inst s h) cid
      entry.routerId entry.controller.inst h (bindOneEntry entry h) hreg1
  have hsecondR := routerBindings_bindOne
      (ExpressServer.bindOne cid entry.routerId entry.controller.inst s h) cid
      entry.routerId entry.controller.inst h (bindOneEntry entry h) hreg1
  rw [hfirstH] at hsecondH
  rw [if_neg (jsIndexOf_ne_neg1_of_mem h _ (by simp))] at hsecondH
  constructor
  · rw [hred1]
    simp only [hred2]
    rw [hsecondH]
  · rw [hred1]
    simp only [hred2]
    rw [hsecondR, hfirstR, List.append_assoc]
    rfl

/-! ## Claim theorems: handler deduplication and unconditional rebinding -/

/-- C2 counterexample: on a fresh server with controller `test`
registered, attaching the declaration `{GET, /test, test}` (object
reference 1) and then a second, structurally equal declaration object
`{GET, /test, test}` (object reference 2) yields a bookkeeping list with
TWO entries carrying identical (verb, path, methodName) — the list is not
left unchanged by a structurally equal duplicate, and the
no-structural-duplicates invariant does not hold. -/
theorem attach_structural_dup_cex :
    (((ExpressServer.new.addController ⟨"test", 0, none⟩).2.addControllerHandlers "test"
        (.inl ⟨.GET, "/test", "test", 1⟩)).2.addControllerHandlers "test"
        (.inl ⟨.GET, "/test", "test", 2⟩)).2.handlersOf "test"
      = [⟨.GET, "/test", "test", 1⟩, ⟨.GET, "/test", "test", 2⟩] ∧
    ((((ExpressServer.new.addController ⟨"test", 0, none⟩).2.addControllerHandlers "test"
        (.inl ⟨.GET, "/test", "test", 1⟩)).2.addControllerHandlers "test"
        (.inl ⟨.GET, "/test", "test", 2⟩)).2.handlersOf "test").length ≠ 1 := by
  decide

/-- C2 (amended): deduplication of the registry bookkeeping list is by
object reference (`indexOf` uses strict equality), not by structural
equality of (verb, path, methodName): attaching a declaration whose
object reference already occurs in the handler list of a registered
controller leaves that list unchanged, so attaching the same declaration
object twice appends exactly one entry; a structurally equal but distinct
declaration object is appended as a second entry (see the
counterexample), so only reference-level uniqueness of the list is
maintained. -/
theorem attach_dedup_by_reference (s : ExpressServer) (cid : String) (h : ControllerHandler)
    (entry : RCEntry) (hreg : dictFind s.routerControllerMap cid = some entry) :
    (jsIndexOf (s.handlersOf cid) h ≠ -1 →
      ((s.addControllerHandlers cid (.inl h)).2).handlersOf cid = s.handlersOf cid) ∧
    (jsIndexOf (s.handlersOf cid) h = -1 →
      (((s.addControllerHandlers cid (.inl h)).2).addControllerHandlers cid (.inl h)).2.handlersOf cid
        = s.handlersOf cid ++ [h]) :=
  ⟨fun hfound => attach_found_noop s cid h entry hreg hfound,
   fun hnew => (attach_twice_new s cid h entry hreg hnew).1⟩

/-- Witness for C2 (amended): on a concrete server with controller `test`
and one attached declaration, re-attaching the same declaration object is
a bookkeeping no-op, and a fresh declaration attached twice appears
exactly once. -/
theorem attach_dedup_by_reference_w :
    dictFind ((ExpressServer.new.addController ⟨"test", 0, none⟩).2.addControllerHandlers "test"
        (.inl ⟨.GET, "/test", "test", 1⟩)).2.routerControllerMap "test"
      = some { routerId := 0,
               controller := { name := "test", inst := 0,
                               handler := some [⟨.GET, "/test", "test", 1⟩] } } ∧
    jsIndexOf (((ExpressServer.new.addController ⟨"test", 0, none⟩).2.addControllerHandlers "test"
        (.inl ⟨.GET, "/test", "test", 1⟩)).2.handlersOf "test") ⟨.GET, "/test", "test", 1⟩ ≠ -1 ∧
    ((((ExpressServer.new.addController ⟨"test", 0, none⟩).2.addControllerHandlers "test"
        (.inl ⟨.GET, "/test", "test", 1⟩)).2.addControllerHandlers "test"
        (.inl ⟨.GET, "/test", "test", 1⟩)).2).handlersOf "test"
      = (((ExpressServer.new.addController ⟨"test", 0, none⟩).2.addControllerHandlers "test"
        (.inl ⟨.GET, "/test", "test", 1⟩)).2).handlersOf "test" := by
  refine ⟨by decide, by decide, ?_⟩
  exact (attach_dedup_by_reference
      ((ExpressServer.new.addController ⟨"test", 0, none⟩).2.addControllerHandlers "test"
        (.inl ⟨.GET, "/test", "test", 1⟩)).2 "test" ⟨.GET, "/test", "test", 1⟩
      { routerId := 0,
        controller := { name := "test", inst := 0,
                        handler := some [⟨.GET, "/test", "test", 1⟩] } }
      (by decide)).1 (by decide)

/-- C8: the engine-level binding happens unconditionally on each
attachHandlers call: attaching the same declaration object twice to a
registered controller re-binds the route in the controller router twice —
the router holds two copies of the binding — while the registry
bookkeeping record of the declaration stays single. -/
theorem engine_rebind_unconditional (s : ExpressServer) (cid : String) (h : ControllerHandler)
    (entry : RCEntry) (hreg : dictFind s.routerControllerMap cid = some entry)
    (hnew : jsIndexOf (s.handlersOf cid) h = -1) :
    (((s.addControllerHandlers cid (.inl h)).2).addControllerHandlers cid (.inl h)).2.routerBindings entry.routerId
      = s.routerBindings entry.routerId
        ++ [{ method := h.method, path := h.path, inst := entry.controller.inst, handlerName := h.handler },
            { method := h.method, path := h.path, inst := entry.controller.inst, handlerName := h.handler }] ∧
    (((s.addControllerHandlers cid (.inl h)).2).addControllerHandlers cid (.inl h)).2.handlersOf cid
      = s.handlersOf cid ++ [h] :=
  ⟨(attach_twice_new s cid h entry hreg hnew).2,
   (attach_twice_new s cid h entry hreg hnew).1⟩

/-- Witness for C8: on a concrete server, attaching the same declaration
twice leaves two identical bindings in the router and one bookkeeping
entry. -/
theorem engine_rebind_unconditional_w :
    dictFind (ExpressServer.new.addController ⟨"test", 7, none⟩).2.routerControllerMap "test"
      = some { routerId := 0, controller := { name := "test", inst := 7, handler := none } } ∧
    jsIndexOf ((ExpressServer.new.addController ⟨"test", 7, none⟩).2.handlersOf "test")
        ⟨.GET, "/test", "test", 1⟩ = -1 ∧
    ((((ExpressServer.new.addController ⟨"test", 7, none⟩).2.addControllerHandlers "test"
        (.inl ⟨.GET, "/test", "test", 1⟩)).2.addControllerHandlers "test"
        (.inl ⟨.GET, "/test", "test", 1⟩)).2.routerBindings 0
      = [{ method := .GET, path := "/test", inst := 7, handlerName := "test" },
         { method := .GET, path := "/test", inst := 7, handlerName := "test" }] ∧
      (((ExpressServer.new.addController ⟨"test", 7, none⟩).2.addControllerHandlers "test"
        (.inl ⟨.GET, "/test", "test", 1⟩)).2.addControllerHandlers "test"
        (.inl ⟨.GET, "/test", "test", 1⟩)).2.handlersOf "test"
      = [⟨.GET, "/test", "test", 1⟩]) := by
  refine ⟨by decide, by decide, ?_⟩
  have hmain := engine_rebind_unconditional
      (ExpressServer.new.addController ⟨"test", 7, none⟩).2 "test" ⟨.GET, "/test", "test", 1⟩
      { routerId := 0, controller := { name := "test", inst := 7, handler := none } }
      (by decide) (by decide)
  exact ⟨by rw [hmain.1] ; decide, by rw [hmain.2] ; decide⟩

end BasicService

namespace BasicService

/-! ## Claim theorems: registration of controllers without or with pre-declared handlers -/

/-- C6 counterexample: registering controller `Stub` with no handler
declarations (no `handler` field at all) creates a registry entry, but
its handler field is absent (`undefined`), not the empty list — the
claim that the entry holds an empty handler list is false at this input. -/
theorem register_no_handlers_cex :
    (ExpressServer.new.addController ⟨"Stub", 0, none⟩).2.handlerField "Stub" = some none ∧
    (ExpressServer.new.addController ⟨"Stub", 0, none⟩).2.handlerField "Stub"
      ≠ some (some []) := by
  decide

/-- C6 (amended): registering a fresh controller that declares no
handlers succeeds and puts an entry under its name into the registry
whose handler field records no bindings — it stays absent (`undefined`)
when the controller declared no handler field, and is the empty list when
it declared an explicit empty list — together with a fresh empty routing
scope, and the scope is mounted into the engine by the registration call
itself. -/
theorem register_no_handlers_entry (s : ExpressServer) (c : Controller)
    (hfresh : dictFind s.routerControllerMap c.name = none)
    (hnoh : c.handler = none ∨ c.handler = some []) :
    (s.addController c).1 = none ∧
    (s.addController c).2.handlerField c.name = some c.handler ∧
    (s.addController c).2.handlersOf c.name = [] ∧
    dictFind (s.addController c).2.routers s.nextRouterId = some [] ∧
    (s.addController c).2.mounted = s.mounted ++ [s.nextRouterId] := by
  rcases hnoh with hn | he
  · simp [ExpressServer.addController, hfresh, hn, ExpressServer.createRouterForController,
          ExpressServer.handlerField, ExpressServer.handlersOf, dictFind_dictSet_self]
  · simp [ExpressServer.addController, hfresh, he, ExpressServer.addControllerHandlers,
          ExpressServer.createRouterForController, ExpressServer.handlerField,
          ExpressServer.handlersOf, dictFind_dictSet_self]

/-- Witness for C6 (amended): registering `Stub` on a fresh server leaves
an entry with no recorded bindings, an empty mounted routing scope. -/
theorem register_no_handlers_entry_w :
    dictFind ExpressServer.new.routerControllerMap "Stub" = none ∧
    (ExpressServer.new.addController ⟨"Stub", 0, none⟩).1 = none ∧
    (ExpressServer.new.addController ⟨"Stub", 0, none⟩).2.handlerField "Stub" = some none ∧
    dictFind (ExpressServer.new.addController ⟨"Stub", 0, none⟩).2.routers 0 = some [] ∧
    (ExpressServer.new.addController ⟨"Stub", 0, none⟩).2.mounted = [0] := by
  have hmain := register_no_handlers_entry ExpressServer.new ⟨"Stub", 0, none⟩
      (by decide) (Or.inl rfl)
  exact ⟨by decide, hmain.1, hmain.2.1, hmain.2.2.2.1, hmain.2.2.2.2⟩

/-! ## The binding loop over a pre-declared handler list -/

theorem foldl_bindOne_subset (cid : String) (rid instRef : Nat) (l : List ControllerHandler)
    (entry : RCEntry) (hhl : entry.controller.handler = some l) :
    ∀ (hs : List ControllerHandler) (s : ExpressServer),
      dictFind s.routerControllerMap cid = some entry →
      (∀ x, x ∈ hs → x ∈ l) →
      (hs.foldl (ExpressServer.bindOne cid rid instRef) s).routerControllerMap
          = s.routerControllerMap ∧
      (hs.foldl (ExpressServer.bindOne cid rid instRef) s).routerBindings rid
          = s.routerBindings rid
            ++ hs.map (fun x => { method := x.method, path := x.path, inst := instRef,
                                  handlerName := x.handler }) ∧
      (hs.foldl (ExpressServer.bindOne cid rid instRef) s).mounted = s.mounted ∧
      (hs.foldl (ExpressServer.bindOne cid rid instRef) s).nextRouterId = s.nextRouterId := by
  intro hs
  induction hs with
  | nil =>
    intro s hreg hsub
    simp
  | cons x rest ih =>
    intro s hreg hsub
    have hx : x ∈ l := hsub x (List.mem_cons_self x rest)
    have hentry : bindOneEntry entry x = entry := by
      obtain ⟨erid, ec⟩ := entry
      obtain ⟨en, ei, eh⟩ := ec
      have heh : eh = some l := hhl
      subst heh
      simp [bindOneEntry, if_neg (jsIndexOf_ne_neg1_of_mem x l hx)]
    have hmap : (ExpressServer.bindOne cid rid instRef s x).routerControllerMap
        = s.routerControllerMap := by
      rw [(bindOne_spec s cid rid instRef x entry hreg).2.1, hentry,
          dictSet_same s.routerControllerMap cid entry hreg]
    have hreg1 : dictFind (ExpressServer.bindOne cid rid instRef s x).routerControllerMap cid
        = some entry := by
      rw [hmap, hreg]
    have hrec := ih (ExpressServer.bindOne cid rid instRef s x) hreg1
      (fun y hy => hsub y (List.mem_cons_of_mem x hy))
    have hspec := bindOne_spec s cid rid instRef x entry hreg
    refine ⟨?_, ?_, ?_, ?_⟩
    · rw [List.foldl_cons, hrec.1, hmap]
    · rw [List.foldl_cons, hrec.2.1,
          routerBindings_bindOne s cid rid instRef x entry hreg]
      simp
    · rw [List.foldl_cons, hrec.2.2.1, hspec.2.2.1]
    · rw [List.foldl_cons, hrec.2.2.2, hspec.2.2.2.1]

end BasicService

namespace BasicService

theorem addController_fresh_some (s : ExpressServer) (c : Controller)
    (l : List ControllerHandler)
    (hfresh : dictFind s.routerControllerMap c.name = none) (hl : c.handler = some l) :
    ∃ t : ExpressServer,
      s.addController c = (none, { t with mounted := t.mounted ++ [s.nextRouterId] }) ∧
      t = l.foldl (ExpressServer.bindOne c.name s.nextRouterId c.inst)
            { s with
                routers := dictSet s.routers s.nextRouterId []
                nextRouterId := s.nextRouterId + 1
                routerControllerMap := dictSet s.routerControllerMap c.name
                  { routerId := s.nextRouterId, controller := c } } := by
  refine ⟨_, ?_, rfl⟩
  have hreg1 : dictFind (dictSet s.routerControllerMap c.name
        { routerId := s.nextRouterId, controller := c }) c.name
      = some { routerId := s.nextRouterId, controller := c } :=
    dictFind_dictSet_self s.routerControllerMap c.name _
  simp [ExpressServer.addController, hfresh, hl, ExpressServer.createRouterForController,
        ExpressServer.addControllerHandlers, hreg1]

/-- C10: registering a fresh controller whose handler field already holds
a (possibly empty) list of declarations succeeds, binds each declaration
in the controller routing scope (in declaration order), and leaves the
bookkeeping handler list exactly as it was — same elements, same order,
same length: every element passes the membership check against the very
list it came from, so registration never duplicates pre-declared
handlers. The routing scope is mounted by the same call. -/
theorem addController_predeclared (s : ExpressServer) (c : Controller)
    (l : List ControllerHandler)
    (hfresh : dictFind s.routerControllerMap c.name = none) (hl : c.handler = some l) :
    (s.addController c).1 = none ∧
    (s.addController c).2.handlerField c.name = some (some l) ∧
    (s.addController c).2.routerBindings s.nextRouterId
      = l.map (fun x => { method := x.method, path := x.path, inst := c.inst,
                          handlerName := x.handler }) ∧
    (s.addController c).2.mounted = s.mounted ++ [s.nextRouterId] := by
  obtain ⟨t, heq, hfold⟩ := addController_fresh_some s c l hfresh hl
  have hreg1 : dictFind (dictSet s.routerControllerMap c.name
        { routerId := s.nextRouterId, controller := c }) c.name
      = some { routerId := s.nextRouterId, controller := c } :=
    dictFind_dictSet_self s.routerControllerMap c.name _
  have hsub := foldl_bindOne_subset c.name s.nextRouterId c.inst l
      { routerId := s.nextRouterId, controller := c } hl l
      { s with
          routers := dictSet s.routers s.nextRouterId []
          nextRouterId := s.nextRouterId + 1
          routerControllerMap := dictSet s.routerControllerMap c.name
            { routerId := s.nextRouterId, controller := c } }
      hreg1 (fun x hx => hx)
  rw [← hfold] at hsub
  have hsnd : (s.addController c).2 = { t with mounted := t.mounted ++ [s.nextRouterId] } := by
    rw [heq]
  refine ⟨by rw [heq], ?_, ?_, ?_⟩
  · rw [hsnd]
    simp only [ExpressServer.handlerField]
    rw [show ({ t with mounted := t.mounted ++ [s.nextRouterId] } : ExpressServer).routerControllerMap
          = t.routerControllerMap from rfl]
    rw [hsub.1, hreg1]
    simp [hl]
  · rw [hsnd]
    simp only [ExpressServer.routerBindings]
    rw [show ({ t with mounted := t.mounted ++ [s.nextRouterId] } : ExpressServer).routers
          = t.routers from rfl]
    have h2 := hsub.2.1
    simp only [ExpressServer.routerBindings] at h2
    rw [h2, dictFind_dictSet_self]
    simp
  · rw [hsnd]
    rw [show ({ t with mounted := t.mounted ++ [s.nextRouterId] } : ExpressServer).mounted
          = t.mounted ++ [s.nextRouterId] from rfl]
    rw [hsub.2.2.1]

/-- Witness for C10: registering a controller that pre-declares two
handlers binds both routes in order and keeps the handler list of length
two, unduplicated. -/
theorem addController_predeclared_w :
    dictFind ExpressServer.new.routerControllerMap "pre" = none ∧
    (ExpressServer.new.addController
        ⟨"pre", 5, some [⟨.GET, "/a", "getA", 1⟩, ⟨.POST, "/b", "postB", 2⟩]⟩).1 = none ∧
    (ExpressServer.new.addController
        ⟨"pre", 5, some [⟨.GET, "/a", "getA", 1⟩, ⟨.POST, "/b", "postB", 2⟩]⟩).2.handlerField "pre"
      = some (some [⟨.GET, "/a", "getA", 1⟩, ⟨.POST, "/b", "postB", 2⟩]) ∧
    (ExpressServer.new.addController
        ⟨"pre", 5, some [⟨.GET, "/a", "getA", 1⟩, ⟨.POST, "/b", "postB", 2⟩]⟩).2.routerBindings 0
      = [{ method := .GET, path := "/a", inst := 5, handlerName := "getA" },
         { method := .POST, path := "/b", inst := 5, handlerName := "postB" }] := by
  have hmain := addController_predeclared ExpressServer.new
      ⟨"pre", 5, some [⟨.GET, "/a", "getA", 1⟩, ⟨.POST, "/b", "postB", 2⟩]⟩
      [⟨.GET, "/a", "getA", 1⟩, ⟨.POST, "/b", "postB", 2⟩] (by decide) rfl
  exact ⟨by decide, hmain.1, hmain.2.1, hmain.2.2.1⟩

end BasicService

namespace BasicService

/-! ## Claim theorems: dispatch -/

/-- C4: for an attached binding resolved by the engine for a matching
inbound request, the installed route handler invokes the controller
instance method named by the binding with the inbound request, awaits its
outcome — whether the method completes synchronously or returns a promise
— and writes the resolved value as the response body with the engine
default success status; the server state is untouched by dispatch. -/
theorem dispatch_invokes_awaits_sends (env : InstEnv) (s : ExpressServer)
    (m : CONTROLLER_METHOD) (p req v : String) (b : RouteBinding)
    (hroute : findRoute s.appRoutes m p = some b)
    (hcall : awaitResult (env b.inst b.handlerName req) = .ok v) :
    s.serverDispatch env m p req = (some (.success successStatus v), s) := by
  simp [ExpressServer.serverDispatch, hroute, dispatchShim, hcall]

/-- Witness for C4: on a server with the `GET /test` handler of controller
`test` attached, a request dispatches to the bound method (here an
asynchronously completing one), and its resolved value comes back as the
success response body, with the state unchanged. -/
theorem dispatch_invokes_awaits_sends_w :
    findRoute (((ExpressServer.new.addController ⟨"test", 0, none⟩).2.addControllerHandlers
        "test" (.inl ⟨.GET, "/test", "test", 1⟩)).2).appRoutes .GET "/test"
      = some { method := .GET, path := "/test", inst := 0, handlerName := "test" } ∧
    awaitResult ((fun _ n r => .promise (.ok (n ++ ":" ++ r)) : InstEnv) 0 "test" "ping")
      = .ok "test:ping" ∧
    (((ExpressServer.new.addController ⟨"test", 0, none⟩).2.addControllerHandlers
        "test" (.inl ⟨.GET, "/test", "test", 1⟩)).2).serverDispatch
        (fun _ n r => .promise (.ok (n ++ ":" ++ r))) .GET "/test" "ping"
      = (some (.success successStatus "test:ping"),
         ((ExpressServer.new.addController ⟨"test", 0, none⟩).2.addControllerHandlers
            "test" (.inl ⟨.GET, "/test", "test", 1⟩)).2) := by
  refine ⟨by decide, rfl, ?_⟩
  exact dispatch_invokes_awaits_sends (fun _ n r => .promise (.ok (n ++ ":" ++ r)))
      (((ExpressServer.new.addController ⟨"test", 0, none⟩).2.addControllerHandlers
        "test" (.inl ⟨.GET, "/test", "test", 1⟩)).2) .GET "/test" "ping" "test:ping"
      { method := .GET, path := "/test", inst := 0, handlerName := "test" }
      (by decide) rfl

/-- C5: for an attached binding resolved for a matching inbound request,
if the invoked controller method throws or its promise rejects, the
dispatch outcome is the propagated failure (the spec
`HandlerInvocationError`), handed to the engine default error path to be
surfaced as a server error response; the failure is per-request and
isolated: the server state — the registry and every other binding — is
exactly the state before the request. -/
theorem dispatch_error_isolated (env : InstEnv) (s : ExpressServer)
    (m : CONTROLLER_METHOD) (p req e : String) (b : RouteBinding)
    (hroute : findRoute s.appRoutes m p = some b)
    (hcall : awaitResult (env b.inst b.handlerName req) = .error e) :
    s.serverDispatch env m p req = (some (.HandlerInvocationError e), s) := by
  simp [ExpressServer.serverDispatch, hroute, dispatchShim, hcall]

/-- Witness for C5: a rejecting controller method turns into a
handler-invocation failure outcome for that request while the server
state stays identical. -/
theorem dispatch_error_isolated_w :
    findRoute (((ExpressServer.new.addController ⟨"test", 0, none⟩).2.addControllerHandlers
        "test" (.inl ⟨.POST, "/boom", "boom", 1⟩)).2).appRoutes .POST "/boom"
      = some { method := .POST, path := "/boom", inst := 0, handlerName := "boom" } ∧
    awaitResult ((fun _ _ _ => .promise (.error "kaput") : InstEnv) 0 "boom" "ping")
      = .error "kaput" ∧
    (((ExpressServer.new.addController ⟨"test", 0, none⟩).2.addControllerHandlers
        "test" (.inl ⟨.POST, "/boom", "boom", 1⟩)).2).serverDispatch
        (fun _ _ _ => .promise (.error "kaput")) .POST "/boom" "ping"
      = (some (.HandlerInvocationError "kaput"),
         ((ExpressServer.new.addController ⟨"test", 0, none⟩).2.addControllerHandlers
            "test" (.inl ⟨.POST, "/boom", "boom", 1⟩)).2) := by
  refine ⟨by decide, rfl, ?_⟩
  exact dispatch_error_isolated (fun _ _ _ => .promise (.error "kaput"))
      (((ExpressServer.new.addController ⟨"test", 0, none⟩).2.addControllerHandlers
        "test" (.inl ⟨.POST, "/boom", "boom", 1⟩)).2) .POST "/boom" "ping" "kaput"
      { method := .POST, path := "/boom", inst := 0, handlerName := "boom" }
      (by decide) rfl

end BasicService
